import Mathlib

/-!
Shallow embedding of the PrinterOne TCP print server (src/server.py).
Byte buffers are `List Nat` (each element < 256 in practice); decoded text is a
list of Unicode code points (`List Nat`).  Stateful Windows API calls
(win32print, sockets) are modelled as explicit traces or oracle-driven
functions.
-/

namespace PrinterOne

/-! ## Generic list and string helpers (Python startswith, in, lower) -/

/-- Model of Python `hay.startswith(needle)` on lists. -/
def listIsPre {α} [DecidableEq α] : List α → List α → Bool
  | [], _ => true
  | _ :: _, [] => false
  | a :: as, b :: bs => decide (a = b) && listIsPre as bs

/-- Model of Python `needle in hay` (contiguous sublist test). -/
def listHasSub {α} [DecidableEq α] (needle : List α) : List α → Bool
  | [] => listIsPre needle []
  | a :: rest => listIsPre needle (a :: rest) || listHasSub needle rest

/-- Byte list of an ASCII string literal. -/
def strBytes (s : String) : List Nat := s.toList.map Char.toNat

/-- Model of Python `s.startswith(p)` on strings. -/
def strStarts (s p : String) : Bool := listIsPre p.toList s.toList

/-- Model of Python `sub in s` on strings. -/
def strHasSub (s sub : String) : Bool := listHasSub sub.toList s.toList

/-- Model of Python `s.lower()` (the names compared in the source are ASCII). -/
def strLower (s : String) : String := String.mk (s.toList.map Char.toLower)

/-- Split a code-point list on the newline character, Python `text.split('\n')`. -/
def splitNl (cs : List Nat) : List (List Nat) :=
  cs.foldr (fun c acc =>
    match acc with
    | [] => if c = 10 then [[], []] else [[c]]
    | l :: ls => if c = 10 then [] :: (l :: ls) else (c :: l) :: ls) [[]]

/-- Fuel-driven worker for `chunksOf`; every step consumes at least one
element, so fuel equal to the list length always suffices. -/
def chunksOfAux {α} : Nat → Nat → List α → List (List α)
  | _, _, [] => []
  | 0, _, _ :: _ => []
  | fuel + 1, n, a :: rest =>
    (a :: rest.take (n - 1)) :: chunksOfAux fuel n (rest.drop (n - 1))

/-- Chunks of `n` elements, Python `line[i:i+n] for i in range(0, len(line), n)`.
The final chunk may be shorter; an empty list yields no chunks. -/
def chunksOf {α} (n : Nat) (l : List α) : List (List α) :=
  chunksOfAux l.length n l

/-! ## Python character predicates

`pyIsPrintable` models `str.isprintable`: exact on the Latin-1 range
(C0/C1 controls, DEL, no-break space and soft hyphen are non-printable);
above U+00FF the common Unicode separator and format characters are listed
and unassigned code points are treated as printable.  No theorem below
depends on the classification above U+00FF. -/

def pyIsPrintable (c : Nat) : Bool :=
  if c < 0x20 then false
  else if c ≤ 0x7E then true
  else if c ≤ 0x9F then false
  else if c = 0xA0 then false
  else if c = 0xAD then false
  else if c < 0x100 then true
  else
    !(c = 0x1680 || (0x2000 ≤ c && c ≤ 0x200F) || c = 0x2028 || c = 0x2029 ||
      (0x202A ≤ c && c ≤ 0x202F) || c = 0x205F || (0x2060 ≤ c && c ≤ 0x2064) ||
      (0x2066 ≤ c && c ≤ 0x206F) || c = 0x3000 || c = 0xFEFF ||
      (0xFFF9 ≤ c && c ≤ 0xFFFB))

/-- Model of Python `str.isspace` on a single code point (the full Unicode
whitespace list used by `str.strip`). -/
def pyIsSpace (c : Nat) : Bool :=
  (0x09 ≤ c && c ≤ 0x0D) || (0x1C ≤ c && c ≤ 0x1F) || c = 0x20 || c = 0x85 ||
  c = 0xA0 || c = 0x1680 || (0x2000 ≤ c && c ≤ 0x200A) || c = 0x2028 ||
  c = 0x2029 || c = 0x202F || c = 0x205F || c = 0x3000

/-- Model of Python `s.strip()`. -/
def pyStrip (cs : List Nat) : List Nat :=
  ((cs.dropWhile pyIsSpace).reverse.dropWhile pyIsSpace).reverse

/-! ## Decoders -/

/-- Continuation byte test for UTF-8. -/
def isCont (b : Nat) : Bool := 0x80 ≤ b && b ≤ 0xBF

/-- Decode one UTF-8 sequence whose lead byte is `b` and whose following
bytes start `rest`; returns the code point and how many bytes of `rest` it
consumed, or `none` on a malformed sequence (overlongs and surrogates
rejected, as CPython does). -/
def utf8Step (b : Nat) (rest : List Nat) : Option (Nat × Nat) :=
  if b < 0x80 then some (b, 0)
  else if 0xC2 ≤ b && b ≤ 0xDF then
    match rest with
    | b1 :: _ =>
      if isCont b1 then some ((b - 0xC0) * 64 + (b1 - 0x80), 1) else none
    | [] => none
  else if 0xE0 ≤ b && b ≤ 0xEF then
    match rest with
    | b1 :: b2 :: _ =>
      let okB1 :=
        if b = 0xE0 then 0xA0 ≤ b1 && b1 ≤ 0xBF
        else if b = 0xED then 0x80 ≤ b1 && b1 ≤ 0x9F
        else isCont b1
      if okB1 && isCont b2 then
        some ((b - 0xE0) * 4096 + (b1 - 0x80) * 64 + (b2 - 0x80), 2)
      else none
    | _ => none
  else if 0xF0 ≤ b && b ≤ 0xF4 then
    match rest with
    | b1 :: b2 :: b3 :: _ =>
      let okB1 :=
        if b = 0xF0 then 0x90 ≤ b1 && b1 ≤ 0xBF
        else if b = 0xF4 then 0x80 ≤ b1 && b1 ≤ 0x8F
        else isCont b1
      if okB1 && isCont b2 && isCont b3 then
        some ((b - 0xF0) * 262144 + (b1 - 0x80) * 4096 + (b2 - 0x80) * 64 +
              (b3 - 0x80), 3)
      else none
    | _ => none
  else none

/-- Fuel-driven worker for `utf8Decode`; every step consumes at least one
byte, so fuel equal to the buffer length always suffices. -/
def utf8DecodeAux : Nat → List Nat → Option (List Nat)
  | _, [] => some []
  | 0, _ :: _ => none
  | fuel + 1, b :: rest =>
    match utf8Step b rest with
    | some (c, k) =>
      match utf8DecodeAux fuel (rest.drop k) with
      | some cs => some (c :: cs)
      | none => none
    | none => none

/-- Strict UTF-8 decoding, Python `data.decode('utf-8')`: `none` models the
`UnicodeDecodeError` raised on any malformed sequence. -/
def utf8Decode (data : List Nat) : Option (List Nat) :=
  utf8DecodeAux data.length data

/-- Fuel-driven worker for `utf8DecodeIgnore`. -/
def utf8DecodeIgnoreAux : Nat → List Nat → List Nat
  | _, [] => []
  | 0, _ :: _ => []
  | fuel + 1, b :: rest =>
    match utf8Step b rest with
    | some (c, k) => c :: utf8DecodeIgnoreAux fuel (rest.drop k)
    | none => utf8DecodeIgnoreAux fuel rest

/-- Lossy UTF-8 decoding, Python `data.decode('utf-8', errors='ignore')`:
valid sequences are decoded, bytes that cannot start or continue a valid
sequence are dropped. -/
def utf8DecodeIgnore (data : List Nat) : List Nat :=
  utf8DecodeIgnoreAux data.length data

/-- Single-byte decoding table for Windows-1252; `none` for the five
undefined bytes, which `errors='ignore'` drops. -/
def cp1252MapByte (b : Nat) : Option Nat :=
  if b = 0x80 then some 0x20AC
  else if b = 0x81 then none
  else if b = 0x82 then some 0x201A
  else if b = 0x83 then some 0x0192
  else if b = 0x84 then some 0x201E
  else if b = 0x85 then some 0x2026
  else if b = 0x86 then some 0x2020
  else if b = 0x87 then some 0x2021
  else if b = 0x88 then some 0x02C6
  else if b = 0x89 then some 0x2030
  else if b = 0x8A then some 0x0160
  else if b = 0x8B then some 0x2039
  else if b = 0x8C then some 0x0152
  else if b = 0x8D then none
  else if b = 0x8E then some 0x017D
  else if b = 0x8F then none
  else if b = 0x90 then none
  else if b = 0x91 then some 0x2018
  else if b = 0x92 then some 0x2019
  else if b = 0x93 then some 0x201C
  else if b = 0x94 then some 0x201D
  else if b = 0x95 then some 0x2022
  else if b = 0x96 then some 0x2013
  else if b = 0x97 then some 0x2014
  else if b = 0x98 then some 0x02DC
  else if b = 0x99 then some 0x2122
  else if b = 0x9A then some 0x0161
  else if b = 0x9B then some 0x203A
  else if b = 0x9C then some 0x0153
  else if b = 0x9D then none
  else if b = 0x9E then some 0x017E
  else if b = 0x9F then some 0x0178
  else some b

/-- Model of Python `data.decode('windows-1252', errors='ignore')`. -/
def cp1252DecodeIgnore (data : List Nat) : List Nat := data.filterMap cp1252MapByte

/-! ## FormatSniffer: PrinterOneServer.analyze_raw_data -/

/-- Replace control characters other than newline, carriage return and tab by
a space: Python `char if char.isprintable() or char in NLRT else ' '`. -/
def cleanText (cs : List Nat) : List Nat :=
  cs.map fun c => if pyIsPrintable c || (c = 10 || c = 13 || c = 9) then c else 32

/-- Embedding of `PrinterOneServer.extract_readable_text`.  The source tries
UTF-8 strictly, then Windows-1252 with `errors='ignore'`; its third attempt
(ASCII, `errors='ignore'`) and final `return None` are unreachable because the
Windows-1252 lossy decode never raises. -/
def extract_readable_text (data : List Nat) : Option (List Nat) :=
  match utf8Decode data with
  | some cs => some (pyStrip (cleanText cs))
  | none => some (pyStrip (cleanText (cp1252DecodeIgnore data)))

/-- Embedding of `PrinterOneServer.analyze_raw_data`, branch for branch in
source order.  Note the source tests the bare `0x1B` prefix before the PCL
header `0x1B%-12345X`, so the PCL branch can never be reached; likewise the
substring test for `PDF` precedes the one for `%PDF`. -/
def analyze_raw_data (data : List Nat) : String :=
  if data.length = 0 then "Empty data"
  else if listIsPre [0x1B] data then "ESC/P (Epson)"
  else if listIsPre ([0x1B] ++ strBytes "%-12345X") data then "PCL (HP)"
  else if listIsPre (strBytes "%!PS") data then "PostScript"
  else if listIsPre [0x02] data then "ZPL (Zebra)"
  else if listHasSub (strBytes "PDF") (data.take 100) then "PDF document"
  else if listHasSub (strBytes "Microsoft Office") data ||
          listHasSub (strBytes "Word") data ||
          listHasSub (strBytes ".docx") data ||
          listHasSub (strBytes ".doc") data then "Microsoft Office document"
  else if listHasSub (strBytes "%PDF") (data.take 100) then "PDF format"
  else
    let decoded := utf8DecodeIgnore data
    if 0 < (pyStrip decoded).length &&
       (decoded.take 200).any (fun c => pyIsPrintable c && !(c = 13 || c = 10 || c = 9)) then
      "Text document (" ++ toString data.length ++ " bytes)"
    else
      "Binary/Unknown format (" ++ toString data.length ++ " bytes)"

/-! ## ServerConfig: PrinterOneServer.load_config / save_config -/

/-- In-memory configuration record; the fields and defaults are exactly the
keys of `default_config` in `load_config`. -/
structure Config where
  printer_name : String
  port : Int
  use_pdf_conversion : Bool
  save_pdf_file : Bool
  auto_start : Bool
  service_name : String
  service_description : String
  manual : Bool
  minimize_to_tray : Bool
deriving DecidableEq

/-- The `default_config` dictionary of `load_config`. -/
def default_config : Config :=
  { printer_name := ""
    port := 9100
    use_pdf_conversion := true
    save_pdf_file := false
    auto_start := false
    service_name := "PrinterOne"
    service_description := "PrinterOne - Network print server for raw print data"
    manual := false
    minimize_to_tray := true }

/-- A config.json file on disk: each known key either present or absent. -/
structure ConfigFile where
  printer_name : Option String
  port : Option Int
  use_pdf_conversion : Option Bool
  save_pdf_file : Option Bool
  auto_start : Option Bool
  service_name : Option String
  service_description : Option String
  manual : Option Bool
  minimize_to_tray : Option Bool

/-- Embedding of `PrinterOneServer.load_config`: when a config file is
readable its values win and missing keys are merged in from
`default_config`; with no readable file the defaults are returned. -/
def load_config (file : Option ConfigFile) : Config :=
  match file with
  | some f =>
    { printer_name := f.printer_name.getD default_config.printer_name
      port := f.port.getD default_config.port
      use_pdf_conversion := f.use_pdf_conversion.getD default_config.use_pdf_conversion
      save_pdf_file := f.save_pdf_file.getD default_config.save_pdf_file
      auto_start := f.auto_start.getD default_config.auto_start
      service_name := f.service_name.getD default_config.service_name
      service_description := f.service_description.getD default_config.service_description
      manual := f.manual.getD default_config.manual
      minimize_to_tray := f.minimize_to_tray.getD default_config.minimize_to_tray }
  | none => default_config

/-- Embedding of `PrinterOneServer.save_config`: each `some` argument
overwrites the corresponding field of the current in-memory config, and the
source then unconditionally sets `self.config["manual"] = True` before
writing the whole dictionary out as JSON. -/
def save_config (cfg : Config) (printer_name : Option String) (port : Option Int)
    (use_pdf_conversion : Option Bool) (save_pdf_file : Option Bool) : Config :=
  let cfg := match printer_name with
    | some v => { cfg with printer_name := v }
    | none => cfg
  let cfg := match port with
    | some v => { cfg with port := v }
    | none => cfg
  let cfg := match use_pdf_conversion with
    | some v => { cfg with use_pdf_conversion := v }
    | none => cfg
  let cfg := match save_pdf_file with
    | some v => { cfg with save_pdf_file := v }
    | none => cfg
  { cfg with manual := true }

/-- The JSON object `json.dump` writes for an in-memory config: every known
key present. -/
def write_config (cfg : Config) : ConfigFile :=
  { printer_name := some cfg.printer_name
    port := some cfg.port
    use_pdf_conversion := some cfg.use_pdf_conversion
    save_pdf_file := some cfg.save_pdf_file
    auto_start := some cfg.auto_start
    service_name := some cfg.service_name
    service_description := some cfg.service_description
    manual := some cfg.manual
    minimize_to_tray := some cfg.minimize_to_tray }

/-! ## SettingsTranslator: PrinterOneServer.apply_print_settings -/

/-- The mutable DEVMODE fields that `apply_print_settings` touches. -/
structure DevMode where
  orientation : Int
  duplex : Int
  paperSize : Int
  printQuality : Int
  color : Int
deriving DecidableEq

/-- Abstract print-settings record; `none` models a key absent from the
`print_settings` dictionary. -/
structure PrintSettings where
  orientation : Option String
  duplex : Option String
  paperSize : Option String
  quality : Option String
  colorMode : Option String
  copies : Option Int
deriving DecidableEq

/-- The `paper_sizes` lookup table of `apply_print_settings`. -/
def paper_sizes (s : String) : Option Int :=
  if s = "A3" then some 8
  else if s = "A4" then some 9
  else if s = "A5" then some 11
  else if s = "Letter" then some 1
  else if s = "Legal" then some 5
  else none

/-- The `quality_settings` lookup table of `apply_print_settings`. -/
def quality_settings (s : String) : Option Int :=
  if s = "draft" then some (-1)
  else if s = "normal" then some (-2)
  else if s = "high" then some (-3)
  else if s = "best" then some (-4)
  else none

/-- Embedding of `PrinterOneServer.apply_print_settings` on the path where the
printer devmode was obtained (when it cannot be obtained the source returns the
devmode untouched).  Field updates follow the source statement for statement:
orientation, duplex and color are always written (with fallbacks portrait,
simplex and color), while paper size and quality are written only when the
looked-up value (default `A4` resp. `normal`) is in the table. -/
def apply_print_settings (dm : DevMode) (s : PrintSettings) : DevMode :=
  let dm := if s.orientation = some "landscape" then { dm with orientation := 2 }
            else { dm with orientation := 1 }
  let duplexMode := s.duplex.getD "simplex"
  let dm := if duplexMode = "duplex_long" then { dm with duplex := 2 }
            else if duplexMode = "duplex_short" then { dm with duplex := 3 }
            else { dm with duplex := 1 }
  let dm := match paper_sizes (s.paperSize.getD "A4") with
    | some code => { dm with paperSize := code }
    | none => dm
  let dm := match quality_settings (s.quality.getD "normal") with
    | some q => { dm with printQuality := q }
    | none => dm
  let colorMode := s.colorMode.getD "color"
  let dm := if colorMode = "monochrome" then { dm with color := 1 }
            else if colorMode = "grayscale" then { dm with color := 1 }
            else { dm with color := 2 }
  dm

/-! ## PrintDispatcher: PrinterOneServer.print_raw

The win32print calls are modelled as a trace of device operations. -/

/-- One win32print call made by `print_raw`. -/
inductive POp where
  | openPrinter
  | applySettings
  | startDoc
  | startPage
  | write (d : List Nat)
  | endPage
  | endDoc
  | closePrinter
deriving DecidableEq

/-- The copy count `print_raw` computes: 1 unless settings are provided with a
`copies` key, in which case `max(1, copies)`. -/
def requestedCopies (s : Option PrintSettings) : Nat :=
  match s with
  | none => 1
  | some ps =>
    match ps.copies with
    | none => 1
    | some k => (max 1 k).toNat

/-- Embedding of `PrinterOneServer.print_raw` as its win32print call trace:
open the printer, apply settings when provided, start one document, write the
buffer once per copy inside a page bracket, end the document, close. -/
def print_raw (data : List Nat) (s : Option PrintSettings) : List POp :=
  [POp.openPrinter] ++
  (match s with | some _ => [POp.applySettings] | none => []) ++
  [POp.startDoc] ++
  (List.replicate (requestedCopies s) [POp.startPage, POp.write data, POp.endPage]).flatten ++
  [POp.endDoc, POp.closePrinter]

/-- Number of buffer writes in a trace. -/
def countWrites (t : List POp) : Nat :=
  t.countP fun op => match op with | POp.write _ => true | _ => false

/-- Number of StartDocPrinter calls in a trace. -/
def countStartDoc (t : List POp) : Nat :=
  t.countP fun op => match op with | POp.startDoc => true | _ => false

/-- Number of EndDocPrinter calls in a trace. -/
def countEndDoc (t : List POp) : Nat :=
  t.countP fun op => match op with | POp.endDoc => true | _ => false

/-- Scanning check that every page operation occurs as an exact
StartPagePrinter, WritePrinter, EndPagePrinter triple. -/
def pagesBracketed : List POp → Bool
  | [] => true
  | POp.startPage :: POp.write _ :: POp.endPage :: rest => pagesBracketed rest
  | POp.startPage :: _ => false
  | POp.write _ :: _ => false
  | POp.endPage :: _ => false
  | _ :: rest => pagesBracketed rest

/-! ## ConnectionListener worker: PrinterOneServer.handle_client -/

/-- Which steps of `handle_client` raise, modelling the exceptions its
`try/except/finally` must survive.  `recvRaises` is an exception out of
`client_socket.recv`; `analyzeRaises` is one out of the logging and
`analyze_raw_data` line; `printRaises` one escaping the print call (in the
source `print_raw` swallows its own exceptions, so the honest instantiation
is `false`, but `handle_client` must be robust to it either way). -/
structure ExcOracle where
  recvRaises : Bool
  analyzeRaises : Bool
  printRaises : Bool
deriving DecidableEq

/-- Oracle for a normal run in which no step raises. -/
def honestOracle : ExcOracle := ⟨false, false, false⟩

/-- Observable events of one `handle_client` run. -/
inductive HEvent where
  | logConnected
  | logData (n : Nat)
  | logFormat (s : String)
  | dispatch (d : List Nat)
  | logNoPrinter
  | logNoData
  | logError
  | closeSocket
  | logDisconnected
deriving DecidableEq

/-- Embedding of `PrinterOneServer.handle_client`: accumulate the received
chunks, and when the buffer is non-empty log it, log its format, and hand the
raw buffer to `print_raw` when a printer is configured; an empty buffer is
only logged.  Any exception is caught and logged, and the `finally` block
closes the client socket on every path. -/
def handle_client (chunks : List (List Nat)) (printerName : String)
    (o : ExcOracle) : List HEvent :=
  [HEvent.logConnected] ++
  (if o.recvRaises then [HEvent.logError]
   else if chunks.flatten.length ≠ 0 then
     if o.analyzeRaises then
       [HEvent.logData chunks.flatten.length, HEvent.logError]
     else if printerName ≠ "" then
       if o.printRaises then
         [HEvent.logData chunks.flatten.length,
          HEvent.logFormat (analyze_raw_data chunks.flatten), HEvent.logError]
       else
         [HEvent.logData chunks.flatten.length,
          HEvent.logFormat (analyze_raw_data chunks.flatten),
          HEvent.dispatch chunks.flatten]
     else
       [HEvent.logData chunks.flatten.length,
        HEvent.logFormat (analyze_raw_data chunks.flatten), HEvent.logNoPrinter]
   else [HEvent.logNoData]) ++
  [HEvent.closeSocket, HEvent.logDisconnected]

/-! ## NetworkIdentifier: PrinterOneServer.get_local_ip -/

/-- One network interface as `psutil.net_if_addrs` reports it: a name, its
IPv4 addresses, and whether the interface is up. -/
structure NetInterface where
  name : String
  addrs : List String
  isup : Bool

/-- Environment `get_local_ip` probes: the local endpoint of the UDP socket
trick (`none` when it fails), the interface list, and the address the local
hostname resolves to (`none` when resolution fails). -/
structure NetEnv where
  method1 : Option String
  interfaces : List NetInterface
  hostnameIp : Option String

/-- Interface-name substrings that make method 2 skip the interface. -/
def skipKeywords : List String :=
  ["virtualbox", "vmware", "vbox", "hyper-v", "loopback",
   "bluetooth", "isatap", "teredo", "tunnel"]

/-- Interface-name substrings that method 2 prefers. -/
def prefKeywords : List String := ["wi-fi", "wifi", "ethernet", "local area"]

/-- Address prefixes filtered by methods 1 and 2: loopback, APIPA link-local,
and the VirtualBox host-only subnet. -/
def filteredIp (ip : String) : Bool :=
  strStarts ip "127." || strStarts ip "169.254." || strStarts ip "192.168.56."

/-- Accumulate one IPv4 address of interface `nm` (up flag `up`), following
the innermost loop of method 2 of `get_local_ip`. -/
def collectAddr (nm : String) (up : Bool)
    (acc2 : List (String × String) × List (String × String)) (ip : String) :
    List (String × String) × List (String × String) :=
  if filteredIp ip then acc2
  else if up then
    if prefKeywords.any (fun k => strHasSub (strLower nm) k) then
      (acc2.1 ++ [(ip, nm)], acc2.2)
    else (acc2.1, acc2.2 ++ [(ip, nm)])
  else acc2

/-- Accumulate one interface into the preferred/other lists, following the
method-2 loop body of `get_local_ip`. -/
def collectIface (acc : List (String × String) × List (String × String))
    (iface : NetInterface) : List (String × String) × List (String × String) :=
  if skipKeywords.any (fun k => strHasSub (strLower iface.name) k) then acc
  else iface.addrs.foldl (collectAddr iface.name iface.isup) acc

/-- The two candidate lists built by method 2 (`interfaces_with_gw` and
`interfaces_without_gw` in the source). -/
def method2Lists (ifaces : List NetInterface) :
    List (String × String) × List (String × String) :=
  ifaces.foldl collectIface ([], [])

/-- Method 3 of `get_local_ip`: the hostname address if it is not loopback
and not in the VirtualBox subnet — the source omits the APIPA check here —
otherwise method 4, the `127.0.0.1` fallback. -/
def method3Result (env : NetEnv) : String :=
  match env.hostnameIp with
  | some ip =>
    if !strStarts ip "127." && !strStarts ip "192.168.56." then ip
    else "127.0.0.1"
  | none => "127.0.0.1"

/-- Method 2 of `get_local_ip`: a Wi-Fi entry of the preferred list if any,
else the head of the preferred list, else the head of the other list, else
method 3. -/
def method2Result (env : NetEnv) : String :=
  match (method2Lists env.interfaces).1 with
  | p0 :: rest =>
    match (p0 :: rest).find? (fun p =>
        strHasSub (strLower p.2) "wi-fi" || strHasSub (strLower p.2) "wifi") with
    | some p => p.1
    | none => p0.1
  | [] =>
    match (method2Lists env.interfaces).2 with
    | p0 :: _ => p0.1
    | [] => method3Result env

/-- Embedding of `PrinterOneServer.get_local_ip`: method 1 returns the UDP
local endpoint when it passes the loopback/APIPA/VirtualBox filter,
otherwise methods 2 to 4 run in order. -/
def get_local_ip (env : NetEnv) : String :=
  match env.method1 with
  | some ip => if !filteredIp ip then ip else method2Result env
  | none => method2Result env

/-! ## RenderingFallback: PrinterOneServer.convert_raw_to_pdf

The reportlab canvas is modelled as the finished pages plus the page being
drawn, each page the ordered list of strings drawn on it (as code points),
together with the `y_position` cursor the source threads through its layout
loops.  The PDF bytes reportlab would emit are non-empty exactly when the
page list is. -/

/-- The canvas state: finished pages, the current page, and the y cursor. -/
structure Canvas where
  pages : List (List (List Nat))
  cur : List (List Nat)
  y : Int

/-- Model of `canvas.drawString`: append one string to the current page. -/
def draw (c : Canvas) (line : List Nat) : Canvas := { c with cur := c.cur ++ [line] }

/-- Model of `canvas.showPage` followed by resetting the y cursor. -/
def newPage (c : Canvas) (y : Int) : Canvas :=
  { pages := c.pages ++ [c.cur], cur := [], y := y }

/-- Update only the y cursor. -/
def setY (c : Canvas) (y : Int) : Canvas := { c with y := y }

/-- Model of `canvas.save`: the finished document. -/
def finishCanvas (c : Canvas) : List (List (List Nat)) := c.pages ++ [c.cur]

/-- All strings drawn so far, finished pages first. -/
def allLines (c : Canvas) : List (List Nat) := c.pages.flatten ++ c.cur

/-- The recurring `if y_position < limit: showPage; y_position = 750`
page-break step of the layout loops. -/
def pageBreakIfBelow (st : Canvas) (limit : Int) : Canvas :=
  if st.y < limit then newPage st 750 else st

/-- Body of the wrap loop of `convert_raw_to_pdf`: draw an 80-character
chunk, advance, page-break when the cursor falls below the margin. -/
def drawChunkStep (st : Canvas) (ch : List Nat) : Canvas :=
  pageBreakIfBelow (setY (draw st ch) (st.y - 15)) 80

/-- Body of the per-line loop of `convert_raw_to_pdf`: page-break when below
the margin, then draw the line directly or wrapped in 80-character chunks. -/
def drawTextLine (st : Canvas) (line : List Nat) : Canvas :=
  let st := pageBreakIfBelow st 80
  if 80 < line.length then (chunksOf 80 line).foldl drawChunkStep st
  else setY (draw st line) (st.y - 15)

/-- The readable-text branch of `convert_raw_to_pdf`: a `Content:` heading
followed by the extracted text laid out line by line. -/
def drawTextContent (c : Canvas) (t : List Nat) : Canvas :=
  let c := draw c (strBytes "Content:")
  let c := setY c (c.y - 30)
  let c := (splitNl t).foldl drawTextLine c
  setY c (c.y - 20)

/-- Hex digit character code (lowercase, as Python `bytes.hex`). -/
def hexDigitCode (n : Nat) : Nat := if n < 10 then 48 + n else 87 + n

/-- Model of Python `data.hex()` as a list of character codes. -/
def hexOf (data : List Nat) : List Nat :=
  (data.map fun b => [hexDigitCode (b / 16), hexDigitCode (b % 16)]).flatten

/-- Hex line formatting: byte pairs joined by spaces. -/
def spacedPairs (line : List Nat) : List Nat :=
  List.intercalate [32] (chunksOf 2 line)

/-- ASCII representation of a byte: printable bytes kept, the rest `.`. -/
def asciiRepr (data : List Nat) : List Nat :=
  data.map fun b => if 32 ≤ b && b ≤ 126 then b else 46

/-- Body of the hex-line loop of `add_hex_dump_to_pdf`. -/
def hexLineStep (st : Canvas) (line : List Nat) : Canvas :=
  let st := pageBreakIfBelow st 50
  setY (draw st (spacedPairs line)) (st.y - 12)

/-- Body of the ASCII-dump loop of `add_hex_dump_to_pdf`: full 80-character
groups are flushed with a page-break check, a trailing partial line is drawn
as is. -/
def asciiLineStep (st : Canvas) (g : List Nat) : Canvas :=
  if g.length = 80 then
    let st := pageBreakIfBelow st 50
    setY (draw st g) (st.y - 12)
  else draw st g

/-- Embedding of `PrinterOneServer.add_hex_dump_to_pdf`: a hex dump of the
first 2000 bytes, 80 hex characters per line, then an ASCII dump of the
first 1000 bytes. -/
def add_hex_dump_to_pdf (c : Canvas) (data : List Nat) : Canvas :=
  let c := draw c (strBytes "Raw Data (Hex):")
  let c := setY c (c.y - 30)
  let c := (chunksOf 80 (hexOf (data.take 2000))).foldl hexLineStep c
  let c := setY c (c.y - 20)
  let c := pageBreakIfBelow c 100
  let c := draw c (strBytes "ASCII representation:")
  let c := setY c (c.y - 20)
  (chunksOf 80 (asciiRepr (data.take 1000))).foldl asciiLineStep c

/-- Embedding of `PrinterOneServer.convert_raw_to_pdf` (content only; the
temp-file plumbing around `canvas.save` is outside the embedding): a header
with byte length, detected format and receipt time, then the extracted text
when it is non-empty, otherwise the hex/ASCII dump. -/
def convert_raw_to_pdf (data : List Nat) (timestamp : String) :
    List (List (List Nat)) :=
  let c : Canvas := ⟨[], [], 0⟩
  let c := draw c (strBytes "PrinterOne - Test Print Job")
  let c := draw c (strBytes ("Data length: " ++ toString data.length ++ " bytes"))
  let c := draw c (strBytes ("Data format: " ++ analyze_raw_data data))
  let c := draw c (strBytes ("Received at: " ++ timestamp))
  let c := setY c 640
  let c :=
    match extract_readable_text data with
    | some t =>
      if t.length ≠ 0 && (pyStrip t).length ≠ 0 then drawTextContent c t
      else add_hex_dump_to_pdf c data
    | none => add_hex_dump_to_pdf c data
  finishCanvas c

/-- Number of socket-close events in a `handle_client` run. -/
def countClose (t : List HEvent) : Nat :=
  t.countP fun e => match e with | HEvent.closeSocket => true | _ => false

/-! ## Theorems -/

/-- Claim C2: `analyze_raw_data` tests the bare `0x1B` prefix before the PCL
header `0x1B%-12345X`, so every buffer starting with the PCL universal exit
language header is classified as ESC/P and the PCL branch is unreachable —
the code contradicts the documented first-match order. -/
theorem c2_pcl_header_classified_as_escp (rest : List Nat) :
    analyze_raw_data (0x1B :: (strBytes "%-12345X" ++ rest)) = "ESC/P (Epson)" := by
  simp [analyze_raw_data, listIsPre]

/-- Claim C1 (counterexample): with configured printer name
`Microsoft Print to PDF` (which contains `pdf` case-insensitively, and with
`use_pdf_conversion` irrelevant because `handle_client` never reads it), the
TCP handler dispatches the raw bytes `plain text job` themselves — which are
not a PDF document — rather than converted PDF bytes. -/
theorem c1_counterexample :
    strHasSub (strLower "Microsoft Print to PDF") "pdf" = true ∧
    handle_client [strBytes "plain text job"] "Microsoft Print to PDF" honestOracle =
      [HEvent.logConnected, HEvent.logData 14,
       HEvent.logFormat "Text document (14 bytes)",
       HEvent.dispatch (strBytes "plain text job"),
       HEvent.closeSocket, HEvent.logDisconnected] ∧
    listIsPre (strBytes "%PDF") (strBytes "plain text job") = false := by
  refine ⟨by decide, ?_, by decide⟩
  decide

/-- Claim C1 (amended): whatever the configured printer name and the
`use_pdf_conversion` flag, every buffer `handle_client` hands to the print
dispatcher is exactly the raw received byte stream; no PDF conversion happens
on the TCP path. -/
theorem c1_amended_raw_dispatch (chunks : List (List Nat)) (name : String)
    (o : ExcOracle) (d : List Nat)
    (h : HEvent.dispatch d ∈ handle_client chunks name o) :
    d = chunks.flatten := by
  unfold handle_client at h
  split_ifs at h <;> simp_all

/-- Witness for C1 (amended) at a concrete one-chunk connection. -/
theorem c1_amended_raw_dispatch_witness :
    strBytes "x" = List.flatten [strBytes "x"] :=
  c1_amended_raw_dispatch [strBytes "x"] "HP" honestOracle (strBytes "x") (by decide)

/-- Claim C9: a connection that delivers zero bytes is logged as such and the
print dispatcher is never invoked for it. -/
theorem c9_zero_bytes_logged_not_dispatched (chunks : List (List Nat))
    (name : String) (o : ExcOracle) (hempty : chunks.flatten = [])
    (hrecv : o.recvRaises = false) :
    HEvent.logNoData ∈ handle_client chunks name o ∧
    ∀ d, HEvent.dispatch d ∉ handle_client chunks name o := by
  simp [handle_client, hempty, hrecv]

/-- Witness for C9 at a connection with no chunks at all. -/
theorem c9_zero_bytes_witness :
    HEvent.logNoData ∈ handle_client [] "HP" honestOracle ∧
    ∀ d, HEvent.dispatch d ∉ handle_client [] "HP" honestOracle :=
  c9_zero_bytes_logged_not_dispatched [] "HP" honestOracle rfl rfl

/-- Claim C10: on every execution path of `handle_client` — normal, empty
buffer, no printer configured, or an exception out of receiving, format
logging, or printing — the client socket is closed exactly once, by the
`finally` block. -/
theorem c10_socket_closed_once (chunks : List (List Nat)) (name : String)
    (o : ExcOracle) :
    countClose (handle_client chunks name o) = 1 := by
  unfold countClose handle_client
  split_ifs <;> simp [List.countP_append, List.countP_cons]

/-- Helper: the copy count computed by `print_raw` is always at least one. -/
theorem one_le_requestedCopies (s : Option PrintSettings) : 1 ≤ requestedCopies s := by
  rcases s with _ | ps
  · simp [requestedCopies]
  · rcases hps : ps.copies with _ | k
    · simp [requestedCopies, hps]
    · simp only [requestedCopies, hps]
      have h1 : (1 : Int) ≤ max 1 k := le_max_left 1 k
      omega

/-- Helper: `countP` over a flattened replicated block. -/
theorem countP_flatten_replicate (p : POp → Bool) (n : Nat) (blk : List POp) :
    ((List.replicate n blk).flatten).countP p = n * blk.countP p := by
  induction n with
  | zero => simp
  | succ k ih =>
    simp [List.replicate_succ, List.countP_append, ih, Nat.succ_mul]
    omega

/-- Helper: the write count of a `print_raw` trace is the computed copy
count. -/
theorem countWrites_print_raw (data : List Nat) (s : Option PrintSettings) :
    countWrites (print_raw data s) = requestedCopies s := by
  rcases s with _ | ps <;>
    simp [print_raw, countWrites, List.countP_append, List.countP_cons,
      countP_flatten_replicate]

/-- Helper: exactly one StartDocPrinter call in a `print_raw` trace. -/
theorem countStartDoc_print_raw (data : List Nat) (s : Option PrintSettings) :
    countStartDoc (print_raw data s) = 1 := by
  rcases s with _ | ps <;>
    simp [print_raw, countStartDoc, List.countP_append, List.countP_cons,
      countP_flatten_replicate]

/-- Helper: exactly one EndDocPrinter call in a `print_raw` trace. -/
theorem countEndDoc_print_raw (data : List Nat) (s : Option PrintSettings) :
    countEndDoc (print_raw data s) = 1 := by
  rcases s with _ | ps <;>
    simp [print_raw, countEndDoc, List.countP_append, List.countP_cons,
      countP_flatten_replicate]

/-- Helper: a page triple at the head of a scan reduces to the rest. -/
theorem pagesBracketed_triple (d : List Nat) (l : List POp) :
    pagesBracketed (POp.startPage :: POp.write d :: POp.endPage :: l) =
      pagesBracketed l := rfl

/-- Helper: the page blocks of `print_raw` followed by its document close are
well bracketed. -/
theorem pagesBracketed_blocks (n : Nat) (d : List Nat) :
    pagesBracketed
      ((List.replicate n [POp.startPage, POp.write d, POp.endPage]).flatten ++
        [POp.endDoc, POp.closePrinter]) = true := by
  induction n with
  | zero => rfl
  | succ k ih =>
    simp only [List.replicate_succ, List.flatten_cons, List.cons_append,
      List.nil_append, List.append_assoc]
    rw [pagesBracketed_triple]
    exact ih

/-- Claim C7: every dispatch writes the buffer exactly `max 1 copies` times
(once when settings or the copies field are absent), every write sits in its
own start-page/end-page bracket, and there is a single start-document and
end-document pair around them. -/
theorem c7_copies_and_page_brackets (data : List Nat) (s : Option PrintSettings) :
    countWrites (print_raw data s) = requestedCopies s ∧
    countStartDoc (print_raw data s) = 1 ∧
    countEndDoc (print_raw data s) = 1 ∧
    pagesBracketed (print_raw data s) = true ∧
    (∀ d, POp.write d ∈ print_raw data s → d = data) ∧
    requestedCopies none = 1 ∧
    ∀ ps : PrintSettings, ps.copies = none → requestedCopies (some ps) = 1 := by
  refine ⟨countWrites_print_raw data s, countStartDoc_print_raw data s,
    countEndDoc_print_raw data s, ?_, ?_, rfl, ?_⟩
  · rcases s with _ | ps <;>
      simpa [print_raw] using pagesBracketed_blocks (requestedCopies _) data
  · intro d h
    rcases s with _ | ps <;>
      simp [print_raw, List.mem_append, List.mem_flatten, List.mem_replicate] at h <;>
      obtain ⟨l, ⟨-, rfl⟩, hm⟩ := h <;>
      simp_all
  · intro ps h
    simp [requestedCopies, h]

/-- Witness for C7: a one-chunk job with no settings is written exactly once
and well bracketed. -/
theorem c7_copies_witness :
    countWrites (print_raw (strBytes "job") none) = 1 ∧
    pagesBracketed (print_raw (strBytes "job") none) = true := by
  have h := c7_copies_and_page_brackets (strBytes "job") none
  exact ⟨h.1.trans h.2.2.2.2.2.1, h.2.2.2.1⟩

/-- Claim C6: a settings record whose paper size is not in the lookup table
leaves the device paper size untouched, still applies every other field by
its own rule, and the job still reaches the device: the trace still contains
at least one write. -/
theorem c6_unsupported_paper_size_best_effort (dm : DevMode) (s : PrintSettings)
    (v : String) (hv : s.paperSize = some v) (hbad : paper_sizes v = none)
    (data : List Nat) :
    (apply_print_settings dm s).paperSize = dm.paperSize ∧
    (apply_print_settings dm s).orientation =
      (if s.orientation = some "landscape" then 2 else 1) ∧
    (apply_print_settings dm s).duplex =
      (if s.duplex.getD "simplex" = "duplex_long" then 2
       else if s.duplex.getD "simplex" = "duplex_short" then 3 else 1) ∧
    (apply_print_settings dm s).printQuality =
      (match quality_settings (s.quality.getD "normal") with
       | some q => q
       | none => dm.printQuality) ∧
    (apply_print_settings dm s).color =
      (if s.colorMode.getD "color" = "monochrome" then 1
       else if s.colorMode.getD "color" = "grayscale" then 1 else 2) ∧
    1 ≤ countWrites (print_raw data (some s)) := by
  have hps : s.paperSize.getD "A4" = v := by rw [hv]; rfl
  have hcount : 1 ≤ countWrites (print_raw data (some s)) := by
    rw [countWrites_print_raw]
    exact one_le_requestedCopies _
  unfold apply_print_settings
  rw [hps, hbad]
  rcases hq : quality_settings (s.quality.getD "normal") with _ | q <;>
    split_ifs <;> simp_all

/-- Witness for C6 at a concrete unsupported paper size `B5`. -/
theorem c6_unsupported_paper_size_witness :
    apply_print_settings ⟨1, 1, 9, -2, 2⟩
        ⟨some "landscape", some "duplex_short", some "B5", some "draft",
         some "monochrome", none⟩ = ⟨2, 3, 9, -1, 1⟩ ∧
    1 ≤ countWrites (print_raw (strBytes "job")
        (some ⟨some "landscape", some "duplex_short", some "B5", some "draft",
               some "monochrome", none⟩)) := by
  have h := c6_unsupported_paper_size_best_effort ⟨1, 1, 9, -2, 2⟩
    ⟨some "landscape", some "duplex_short", some "B5", some "draft",
     some "monochrome", none⟩ "B5" rfl (by decide) (strBytes "job")
  exact ⟨by decide, h.2.2.2.2.2⟩

/-- Claim C3 (counterexample): a device mode whose current defaults are
landscape, long-edge duplex, A3, best quality and monochrome is not left
unchanged by an empty settings record — `apply_print_settings` overwrites
every one of these fields. -/
theorem c3_counterexample :
    apply_print_settings ⟨2, 2, 8, -4, 1⟩ ⟨none, none, none, none, none, none⟩ ≠
      ⟨2, 2, 8, -4, 1⟩ := by
  decide

/-- Claim C3 (amended): fields absent from the settings record are not left
at the device's current defaults: `apply_print_settings` overwrites them with
the fixed fallbacks portrait (1), simplex (1), A4 (9), normal quality (-2)
and color (2), whatever the device mode held before. -/
theorem c3_absent_fields_overwritten (dm : DevMode) :
    apply_print_settings dm ⟨none, none, none, none, none, none⟩ =
      ⟨1, 1, 9, -2, 2⟩ := by
  rfl

/-- Helper: one address step of method 2 only ever adds addresses that pass
the loopback/APIPA/VirtualBox filter. -/
theorem collectAddr_inv (nm : String) (up : Bool)
    (acc2 : List (String × String) × List (String × String)) (ip : String)
    (h1 : ∀ p ∈ acc2.1, filteredIp p.1 = false)
    (h2 : ∀ p ∈ acc2.2, filteredIp p.1 = false) :
    (∀ p ∈ (collectAddr nm up acc2 ip).1, filteredIp p.1 = false) ∧
    (∀ p ∈ (collectAddr nm up acc2 ip).2, filteredIp p.1 = false) := by
  unfold collectAddr
  split_ifs with hf hu hp
  · exact ⟨h1, h2⟩
  · refine ⟨fun p hp2 => ?_, h2⟩
    rcases List.mem_append.mp hp2 with hin | hnew
    · exact h1 p hin
    · rw [List.mem_singleton] at hnew
      subst hnew
      simpa using hf
  · refine ⟨h1, fun p hp2 => ?_⟩
    rcases List.mem_append.mp hp2 with hin | hnew
    · exact h2 p hin
    · rw [List.mem_singleton] at hnew
      subst hnew
      simpa using hf
  · exact ⟨h1, h2⟩

/-- Helper: the address fold of method 2 preserves the filter invariant. -/
theorem foldl_collectAddr_inv (nm : String) (up : Bool) (ips : List String) :
    ∀ acc2 : List (String × String) × List (String × String),
    (∀ p ∈ acc2.1, filteredIp p.1 = false) →
    (∀ p ∈ acc2.2, filteredIp p.1 = false) →
    (∀ p ∈ (ips.foldl (collectAddr nm up) acc2).1, filteredIp p.1 = false) ∧
    (∀ p ∈ (ips.foldl (collectAddr nm up) acc2).2, filteredIp p.1 = false) := by
  induction ips with
  | nil => exact fun acc2 h1 h2 => ⟨h1, h2⟩
  | cons ip rest ih =>
    intro acc2 h1 h2
    have h := collectAddr_inv nm up acc2 ip h1 h2
    exact ih _ h.1 h.2

/-- Helper: the interface fold of method 2 preserves the filter invariant. -/
theorem method2Lists_inv (ifaces : List NetInterface) :
    (∀ p ∈ (method2Lists ifaces).1, filteredIp p.1 = false) ∧
    (∀ p ∈ (method2Lists ifaces).2, filteredIp p.1 = false) := by
  unfold method2Lists
  have main : ∀ (l : List NetInterface)
      (acc : List (String × String) × List (String × String)),
      (∀ p ∈ acc.1, filteredIp p.1 = false) →
      (∀ p ∈ acc.2, filteredIp p.1 = false) →
      (∀ p ∈ (l.foldl collectIface acc).1, filteredIp p.1 = false) ∧
      (∀ p ∈ (l.foldl collectIface acc).2, filteredIp p.1 = false) := by
    intro l
    induction l with
    | nil => exact fun acc h1 h2 => ⟨h1, h2⟩
    | cons iface rest ih =>
      intro acc h1 h2
      have hstep : (∀ p ∈ (collectIface acc iface).1, filteredIp p.1 = false) ∧
          (∀ p ∈ (collectIface acc iface).2, filteredIp p.1 = false) := by
        unfold collectIface
        split_ifs
        · exact ⟨h1, h2⟩
        · exact foldl_collectAddr_inv iface.name iface.isup iface.addrs acc h1 h2
      exact ih _ hstep.1 hstep.2
  exact main ifaces ([], []) (by simp) (by simp)

/-- Helper: an address that passes the filter starts with none of the three
excluded prefixes. -/
theorem filteredIp_false_parts (ip : String) (h : filteredIp ip = false) :
    strStarts ip "127." = false ∧ strStarts ip "169.254." = false ∧
    strStarts ip "192.168.56." = false := by
  simp [filteredIp] at h
  tauto

/-- Helper: method 3 with a failed hostname resolution is the fallback. -/
theorem method3Result_none (env : NetEnv) (h : env.hostnameIp = none) :
    method3Result env = "127.0.0.1" := by
  unfold method3Result; rw [h]

/-- Helper: method 3 with a resolved hostname applies its two-prefix check. -/
theorem method3Result_some (env : NetEnv) (ip : String)
    (h : env.hostnameIp = some ip) :
    method3Result env =
      (if !strStarts ip "127." && !strStarts ip "192.168.56." then ip
       else "127.0.0.1") := by
  unfold method3Result; rw [h]

/-- Helper: method 2 with both candidate lists empty defers to method 3. -/
theorem method2Result_nil_nil (env : NetEnv)
    (h1 : (method2Lists env.interfaces).1 = [])
    (h2 : (method2Lists env.interfaces).2 = []) :
    method2Result env = method3Result env := by
  unfold method2Result; rw [h1, h2]

/-- Helper: method 2 with no preferred interfaces takes the head of the other
list. -/
theorem method2Result_nil_cons (env : NetEnv) (q0 : String × String)
    (qrest : List (String × String))
    (h1 : (method2Lists env.interfaces).1 = [])
    (h2 : (method2Lists env.interfaces).2 = q0 :: qrest) :
    method2Result env = q0.1 := by
  unfold method2Result; rw [h1, h2]

/-- Helper: method 2 takes a Wi-Fi entry of the preferred list when the
search finds one. -/
theorem method2Result_cons_found (env : NetEnv) (p0 p : String × String)
    (rest : List (String × String))
    (h1 : (method2Lists env.interfaces).1 = p0 :: rest)
    (hf : (p0 :: rest).find? (fun p =>
        strHasSub (strLower p.2) "wi-fi" || strHasSub (strLower p.2) "wifi") = some p) :
    method2Result env = p.1 := by
  unfold method2Result; simp only [h1]; rw [hf]

/-- Helper: method 2 takes the head of the preferred list when no Wi-Fi entry
is found. -/
theorem method2Result_cons_not_found (env : NetEnv) (p0 : String × String)
    (rest : List (String × String))
    (h1 : (method2Lists env.interfaces).1 = p0 :: rest)
    (hf : (p0 :: rest).find? (fun p =>
        strHasSub (strLower p.2) "wi-fi" || strHasSub (strLower p.2) "wifi") = none) :
    method2Result env = p0.1 := by
  unfold method2Result; simp only [h1]; rw [hf]

/-- Helper: method 1 failing defers to method 2. -/
theorem get_local_ip_m1_none (env : NetEnv) (h : env.method1 = none) :
    get_local_ip env = method2Result env := by
  unfold get_local_ip; rw [h]

/-- Helper: method 1 returns its address when the filter passes. -/
theorem get_local_ip_m1_pass (env : NetEnv) (ip : String)
    (h : env.method1 = some ip) (hf : filteredIp ip = false) :
    get_local_ip env = ip := by
  unfold get_local_ip; rw [h]; simp [hf]

/-- Helper: method 1 defers to method 2 when the filter rejects its
address. -/
theorem get_local_ip_m1_filtered (env : NetEnv) (ip : String)
    (h : env.method1 = some ip) (hf : filteredIp ip = true) :
    get_local_ip env = method2Result env := by
  unfold get_local_ip; rw [h]; simp [hf]

/-- Helper: method 3 returns the fallback or an address that is neither
loopback nor in the VirtualBox subnet (APIPA is not excluded there). -/
theorem method3Result_cases (env : NetEnv) :
    method3Result env = "127.0.0.1" ∨
    (strStarts (method3Result env) "127." = false ∧
     strStarts (method3Result env) "192.168.56." = false) := by
  rcases hhost : env.hostnameIp with _ | ip
  · left; exact method3Result_none env hhost
  · rw [method3Result_some env ip hhost]
    split_ifs with h
    · right
      simp only [Bool.and_eq_true, Bool.not_eq_true'] at h
      exact h
    · left; rfl

/-- Helper: method 2 either returns a filtered-clean address or defers to
method 3. -/
theorem method2Result_cases (env : NetEnv) :
    filteredIp (method2Result env) = false ∨
    method2Result env = method3Result env := by
  have hinv := method2Lists_inv env.interfaces
  rcases h1 : (method2Lists env.interfaces).1 with _ | ⟨p0, rest⟩
  · rcases h2 : (method2Lists env.interfaces).2 with _ | ⟨q0, qrest⟩
    · right; exact method2Result_nil_nil env h1 h2
    · left
      rw [method2Result_nil_cons env q0 qrest h1 h2]
      exact hinv.2 q0 (by rw [h2]; exact List.mem_cons_self q0 qrest)
  · rcases hf : (p0 :: rest).find? (fun p =>
        strHasSub (strLower p.2) "wi-fi" || strHasSub (strLower p.2) "wifi") with _ | p
    · left
      rw [method2Result_cons_not_found env p0 rest h1 hf]
      exact hinv.1 p0 (by rw [h1]; exact List.mem_cons_self p0 rest)
    · left
      rw [method2Result_cons_found env p0 p rest h1 hf]
      have hp : p ∈ p0 :: rest := List.mem_of_find?_eq_some hf
      exact hinv.1 p (by rw [h1]; exact hp)

/-- Claim C8 (amended): every address `get_local_ip` returns is either the
final `127.0.0.1` fallback or neither loopback nor in the VirtualBox subnet
192.168.56.0/24; and when the hostname-resolution method is out of play
(resolution fails) the result is the fallback or also free of APIPA
link-local addresses — only method 3 can leak one, because the source omits
the `169.254.` check there. -/
theorem c8_local_ip_filter (env : NetEnv) :
    (get_local_ip env = "127.0.0.1" ∨
      (strStarts (get_local_ip env) "127." = false ∧
       strStarts (get_local_ip env) "192.168.56." = false)) ∧
    (env.hostnameIp = none →
      get_local_ip env = "127.0.0.1" ∨ filteredIp (get_local_ip env) = false) := by
  have hm2 := method2Result_cases env
  have hm3 := method3Result_cases env
  have key2 : method2Result env = "127.0.0.1" ∨
      (strStarts (method2Result env) "127." = false ∧
       strStarts (method2Result env) "192.168.56." = false) := by
    rcases hm2 with hgood | h3
    · right
      have h := filteredIp_false_parts _ hgood
      exact ⟨h.1, h.2.2⟩
    · rw [h3]; exact hm3
  have key2b : env.hostnameIp = none →
      (method2Result env = "127.0.0.1" ∨ filteredIp (method2Result env) = false) := by
    intro hnone
    rcases hm2 with hgood | h3
    · right; exact hgood
    · left; rw [h3]; exact method3Result_none env hnone
  rcases h1 : env.method1 with _ | ip
  · rw [get_local_ip_m1_none env h1]
    exact ⟨key2, key2b⟩
  · rcases hfc : filteredIp ip with _ | _
    · rw [get_local_ip_m1_pass env ip h1 hfc]
      have h := filteredIp_false_parts _ hfc
      exact ⟨Or.inr ⟨h.1, h.2.2⟩, fun _ => Or.inr hfc⟩
    · rw [get_local_ip_m1_filtered env ip h1 hfc]
      exact ⟨key2, key2b⟩

/-- Witness for C8 (amended) in an environment where every method fails. -/
theorem c8_local_ip_filter_witness :
    get_local_ip ⟨none, [], none⟩ = "127.0.0.1" ∨
    filteredIp (get_local_ip ⟨none, [], none⟩) = false :=
  (c8_local_ip_filter ⟨none, [], none⟩).2 rfl

/-- Claim C8 (counterexample): when methods 1 and 2 fail and the hostname
resolves to the APIPA address `169.254.1.5`, `get_local_ip` returns that
link-local address before the final fallback, because method 3 checks only
the loopback and VirtualBox prefixes. -/
theorem c8_counterexample :
    get_local_ip ⟨none, [], some "169.254.1.5"⟩ = "169.254.1.5" ∧
    strStarts "169.254.1.5" "169.254." = true ∧
    "169.254.1.5" ≠ "127.0.0.1" := by
  refine ⟨by decide, by decide, by decide⟩

/-- Claim C4 (counterexample): saving printer name `X` and port 9200 over the
default configuration and loading it back does not give defaults on all other
fields: `save_config` also sets the `manual` flag, whose default is false. -/
theorem c4_roundtrip_counterexample :
    load_config (some (write_config
        (save_config default_config (some "X") (some 9200) none none))) ≠
      { default_config with printer_name := "X", port := 9200 } := by
  decide

/-- Claim C4 (amended): the save/load round-trip yields printer name `X`,
port 9200, and every other field at its default except `manual`, which
`save_config` unconditionally sets to true. -/
theorem c4_roundtrip_amended :
    load_config (some (write_config
        (save_config default_config (some "X") (some 9200) none none))) =
      { default_config with printer_name := "X", port := 9200, manual := true } := by
  decide

/-- Helper: drawing appends one string to the lines drawn so far. -/
theorem allLines_draw (c : Canvas) (l : List Nat) :
    allLines (draw c l) = allLines c ++ [l] := by
  simp [allLines, draw]

/-- Helper: a page break moves lines between pages but keeps them all. -/
theorem allLines_newPage (c : Canvas) (y : Int) :
    allLines (newPage c y) = allLines c := by
  simp [allLines, newPage]

/-- Helper: moving the y cursor draws nothing. -/
theorem allLines_setY (c : Canvas) (y : Int) :
    allLines (setY c y) = allLines c := rfl

/-- Helper: the conditional page break draws nothing. -/
theorem allLines_pageBreakIfBelow (c : Canvas) (limit : Int) :
    allLines (pageBreakIfBelow c limit) = allLines c := by
  unfold pageBreakIfBelow
  split_ifs
  · exact allLines_newPage c 750
  · rfl

/-- Helper: folding a lines-appending step over a list appends lines. -/
theorem foldl_appendsLines {β : Type} (step : Canvas → β → Canvas)
    (hstep : ∀ c b, ∃ t, allLines (step c b) = allLines c ++ t) (l : List β) :
    ∀ c : Canvas, ∃ t, allLines (l.foldl step c) = allLines c ++ t := by
  induction l with
  | nil => exact fun c => ⟨[], by simp⟩
  | cons b rest ih =>
    intro c
    obtain ⟨t1, h1⟩ := hstep c b
    obtain ⟨t2, h2⟩ := ih (step c b)
    exact ⟨t1 ++ t2, by rw [List.foldl_cons, h2, h1, List.append_assoc]⟩

/-- Helper: one wrap-loop step appends lines. -/
theorem drawChunkStep_appendsLines (c : Canvas) (ch : List Nat) :
    ∃ t, allLines (drawChunkStep c ch) = allLines c ++ t := by
  unfold drawChunkStep
  exact ⟨[ch], by rw [allLines_pageBreakIfBelow, allLines_setY, allLines_draw]⟩

/-- Helper: one text-line step appends lines. -/
theorem drawTextLine_appendsLines (c : Canvas) (line : List Nat) :
    ∃ t, allLines (drawTextLine c line) = allLines c ++ t := by
  simp only [drawTextLine]
  split_ifs
  · obtain ⟨t, ht⟩ := foldl_appendsLines drawChunkStep drawChunkStep_appendsLines
      (chunksOf 80 line) (pageBreakIfBelow c 80)
    exact ⟨t, by rw [ht, allLines_pageBreakIfBelow]⟩
  · exact ⟨[line], by rw [allLines_setY, allLines_draw, allLines_pageBreakIfBelow]⟩

/-- Helper: the readable-text branch appends lines. -/
theorem drawTextContent_appendsLines (c : Canvas) (t : List Nat) :
    ∃ s, allLines (drawTextContent c t) = allLines c ++ s := by
  simp only [drawTextContent]
  obtain ⟨s, hs⟩ := foldl_appendsLines drawTextLine drawTextLine_appendsLines
    (splitNl t) (setY (draw c (strBytes "Content:")) ((draw c (strBytes "Content:")).y - 30))
  refine ⟨strBytes "Content:" :: s, ?_⟩
  rw [allLines_setY, hs, allLines_setY, allLines_draw, List.append_assoc]
  rfl

/-- Helper: one hex-dump line step appends lines. -/
theorem hexLineStep_appendsLines (c : Canvas) (line : List Nat) :
    ∃ t, allLines (hexLineStep c line) = allLines c ++ t := by
  simp only [hexLineStep]
  exact ⟨[spacedPairs line],
    by rw [allLines_setY, allLines_draw, allLines_pageBreakIfBelow]⟩

/-- Helper: one ASCII-dump line step appends lines. -/
theorem asciiLineStep_appendsLines (c : Canvas) (g : List Nat) :
    ∃ t, allLines (asciiLineStep c g) = allLines c ++ t := by
  simp only [asciiLineStep]
  split_ifs
  · exact ⟨[g], by rw [allLines_setY, allLines_draw, allLines_pageBreakIfBelow]⟩
  · exact ⟨[g], allLines_draw c g⟩

/-- Helper: the whole hex/ASCII dump appends lines. -/
theorem add_hex_dump_appendsLines (c : Canvas) (data : List Nat) :
    ∃ t, allLines (add_hex_dump_to_pdf c data) = allLines c ++ t := by
  simp only [add_hex_dump_to_pdf]
  obtain ⟨t1, h1⟩ := foldl_appendsLines hexLineStep hexLineStep_appendsLines
    (chunksOf 80 (hexOf (data.take 2000)))
    (setY (draw c (strBytes "Raw Data (Hex):"))
      ((draw c (strBytes "Raw Data (Hex):")).y - 30))
  obtain ⟨t2, h2⟩ := foldl_appendsLines asciiLineStep asciiLineStep_appendsLines
    (chunksOf 80 (asciiRepr (data.take 1000))) _
  refine ⟨strBytes "Raw Data (Hex):" :: t1 ++ ([strBytes "ASCII representation:"] ++ t2), ?_⟩
  rw [h2, allLines_setY, allLines_draw, allLines_pageBreakIfBelow, allLines_setY,
    h1, allLines_setY, allLines_draw]
  simp [List.append_assoc]

/-- Helper: a finished canvas flattens to the lines drawn on it. -/
theorem finishCanvas_flatten (c : Canvas) :
    (finishCanvas c).flatten = allLines c := by
  simp [finishCanvas, allLines]

/-- Claim C5: the PDF rendering fallback is total over arbitrary byte
buffers — empty and non-UTF-8 included — and always yields a non-empty
document: at least one page exists and the header title line is drawn. -/
theorem c5_render_total_nonempty (data : List Nat) (ts : String) :
    convert_raw_to_pdf data ts ≠ [] ∧
    strBytes "PrinterOne - Test Print Job" ∈ (convert_raw_to_pdf data ts).flatten := by
  simp only [convert_raw_to_pdf]
  constructor
  · simp [finishCanvas]
  · rw [finishCanvas_flatten]
    have hbase : strBytes "PrinterOne - Test Print Job" ∈
        allLines (setY (draw (draw (draw (draw ⟨[], [], 0⟩
          (strBytes "PrinterOne - Test Print Job"))
          (strBytes ("Data length: " ++ toString data.length ++ " bytes")))
          (strBytes ("Data format: " ++ analyze_raw_data data)))
          (strBytes ("Received at: " ++ ts))) 640) := by
      simp [allLines, draw, setY]
    rcases hext : extract_readable_text data with _ | t
    · simp only [hext]
      obtain ⟨s, hs⟩ := add_hex_dump_appendsLines _ data
      rw [hs]
      exact List.mem_append_left _ hbase
    · simp only [hext]
      split_ifs
      · obtain ⟨s, hs⟩ := drawTextContent_appendsLines _ t
        rw [hs]
        exact List.mem_append_left _ hbase
      · obtain ⟨s, hs⟩ := add_hex_dump_appendsLines _ data
        rw [hs]
        exact List.mem_append_left _ hbase

end PrinterOne
